import Mathlib

/-!
Shallow embedding of the sales-tracking application in `app.py`:
a SQLite-backed store of two tables (`products`, `sales`), CRUD
operations, a joined sales listing with a derived revenue column,
dashboard reporting windows, and the `st.cache_data(ttl=10)` read
cache in front of the two list queries.

Timestamps: the program stores `sold_at` as `datetime.isoformat()`
text and orders by that text.  For timestamps produced by
`isoformat()` (fixed-width `YYYY-MM-DDTHH:MM:SS`, optional
fractional-second suffix), lexicographic text order coincides with
chronological order, so we model a timestamp as an integer count of
minutes since an epoch; `timedelta(days=6)` is `6 * 1440` minutes,
the calendar date of a timestamp is its floor-quotient by `1440`,
and the time of day its remainder.  Prices (SQLite `REAL`) are
modelled as rationals; the claims under study involve no
floating-point rounding behaviour.
-/

namespace SalesApp

/-- A row of the `products` table: `id INTEGER PRIMARY KEY AUTOINCREMENT`,
`name TEXT UNIQUE NOT NULL`, `price REAL NOT NULL CHECK(price >= 0)`. -/
structure Product where
  id : Nat
  name : String
  price : Rat
deriving Repr, DecidableEq

/-- A row of the `sales` table: `id INTEGER PRIMARY KEY AUTOINCREMENT`,
`product_id INTEGER NOT NULL` (foreign key), `qty INTEGER NOT NULL
CHECK(qty > 0)`, `sold_at TEXT NOT NULL` (modelled as minutes since epoch). -/
structure Sale where
  id : Nat
  product_id : Nat
  qty : Int
  sold_at : Int
deriving Repr, DecidableEq

/-- The database state: the two tables in insertion order plus the
AUTOINCREMENT counters. -/
structure DB where
  products : List Product
  sales : List Sale
  nextProductId : Nat
  nextSaleId : Nat
deriving Repr, DecidableEq

/-- The storage-level errors `sqlite3` raises as `IntegrityError`:
a CHECK-constraint failure and a FOREIGN-KEY failure. -/
inductive DBError where
  | constraintViolation
  | referentialIntegrityError
deriving Repr, DecidableEq

/-- Look up the product a foreign key refers to (the `JOIN products p
ON p.id = s.product_id` and the FOREIGN KEY check). -/
def DB.findProduct (db : DB) (pid : Nat) : Option Product :=
  db.products.find? fun p => p.id == pid

/-- `add_product(name, price)`: `INSERT OR IGNORE INTO products(name, price)
VALUES(?, ?)` with `name.strip()`.  The `OR IGNORE` conflict policy silently
skips the row both on a `UNIQUE(name)` conflict and on a failure of the
`CHECK(price >= 0)` constraint (SQLite's IGNORE resolution applies to CHECK,
NOT NULL, UNIQUE and PRIMARY KEY constraints alike); it never raises. -/
def add_product (db : DB) (name : String) (price : Rat) : DB :=
  let trimmed := name.trim
  if db.products.any fun p => p.name == trimmed then db
  else if price < 0 then db
  else { db with
    products := db.products ++ [⟨db.nextProductId, trimmed, price⟩]
    nextProductId := db.nextProductId + 1 }

/-- `update_product_price(prod_id, new_price)`: `UPDATE products SET
price = ? WHERE id = ?`.  When no row matches the id, zero rows are
updated and nothing is checked; when a row matches, writing a negative
price fails the `CHECK(price >= 0)` constraint and the statement raises. -/
def update_product_price (db : DB) (prod_id : Nat) (new_price : Rat) :
    Except DBError DB :=
  if db.products.any fun p => p.id == prod_id then
    if new_price < 0 then .error .constraintViolation
    else .ok { db with
      products := db.products.map fun p =>
        if p.id == prod_id then { p with price := new_price } else p }
  else .ok db

/-- `add_sale(product_id, qty, sold_at)`: `INSERT INTO sales(product_id,
qty, sold_at) VALUES (?, ?, ?)`.  SQLite evaluates the `CHECK(qty > 0)`
constraint while building the row, before the foreign-key check that runs
at insertion; either failure raises and leaves the table unchanged. -/
def add_sale (db : DB) (product_id : Nat) (qty : Int) (sold_at : Int) :
    Except DBError DB :=
  if qty ≤ 0 then .error .constraintViolation
  else if (db.findProduct product_id).isNone then .error .referentialIntegrityError
  else .ok { db with
    sales := db.sales ++ [⟨db.nextSaleId, product_id, qty, sold_at⟩]
    nextSaleId := db.nextSaleId + 1 }

/-- The `ORDER BY name` order on products (ascending product name;
SQLite BINARY collation on UTF-8 text agrees with code-point order). -/
def prodOrd (a b : Product) : Prop := a.name ≤ b.name

instance : DecidableRel prodOrd := fun a b =>
  inferInstanceAs (Decidable (a.name ≤ b.name))

instance : IsTotal Product prodOrd := ⟨fun a b => le_total a.name b.name⟩

instance : IsTrans Product prodOrd := ⟨fun _ _ _ h h2 => le_trans h h2⟩

/-- `load_products()`: `SELECT id, name, price FROM products ORDER BY name`. -/
def load_products (db : DB) : List Product :=
  db.products.insertionSort prodOrd

/-- A row of the DataFrame built by `load_sales`: the joined columns
`s.id, s.product_id, p.name as product, p.price, s.qty, s.sold_at`,
plus the derived `revenue` column (`none` before derivation). -/
structure SaleRow where
  id : Nat
  product_id : Nat
  product : String
  price : Rat
  qty : Int
  sold_at : Int
  revenue : Option Rat
deriving Repr, DecidableEq

/-- One row of the `JOIN products p ON p.id = s.product_id`: the sale's
columns next to its owning product's current name and price;
`none` when the foreign key matches no product (the row is dropped). -/
def joinRow (db : DB) (s : Sale) : Option SaleRow :=
  (db.findProduct s.product_id).map fun p =>
    ⟨s.id, s.product_id, p.name, p.price, s.qty, s.sold_at, none⟩

/-- The `ORDER BY s.sold_at DESC, s.id DESC` order on joined rows:
later timestamp first, ties broken by larger insertion id first. -/
def rowOrd (a b : SaleRow) : Prop :=
  b.sold_at < a.sold_at ∨ (b.sold_at = a.sold_at ∧ b.id ≤ a.id)

instance : DecidableRel rowOrd := fun _a _b =>
  inferInstanceAs (Decidable (_ ∨ _))

instance : IsTotal SaleRow rowOrd :=
  ⟨fun a b => by unfold rowOrd; omega⟩

instance : IsTrans SaleRow rowOrd :=
  ⟨fun a b c h h2 => by unfold rowOrd at *; omega⟩

/-- The pandas step `df["revenue"] = df["qty"] * df["price"]` on one row
(together with the `pd.to_datetime` parse of `sold_at`, which our
timestamp model leaves as the integer itself). -/
def deriveRevenue (r : SaleRow) : SaleRow :=
  { r with revenue := some ((r.qty : Rat) * r.price) }

/-- The DataFrame `load_sales` returns: its rows, and whether the
derived `revenue` column and the parsed-datetime form of `sold_at`
are present (pandas adds them only on the non-empty branch). -/
structure SalesResult where
  rows : List SaleRow
  hasRevenue : Bool
  soldAtParsed : Bool
deriving Repr, DecidableEq

/-- `load_sales()`: the sales/products join ordered by `sold_at DESC,
id DESC`; when the resulting frame is non-empty, `sold_at` is parsed to
datetimes and the `revenue = qty * price` column is added; an empty
frame is returned as is, without those two derived columns. -/
def load_sales (db : DB) : SalesResult :=
  let df := (db.sales.filterMap (joinRow db)).insertionSort rowOrd
  if df.isEmpty then ⟨df, false, false⟩
  else ⟨df.map deriveRevenue, true, true⟩

/-! Dashboard aggregation (`section_dashboard`).  `now` is a timestamp
in minutes; `today = now.date()` is its calendar day.  The month window
additionally takes `monthStart = today.replace(day=1)` as a parameter,
since the linear-minutes time model carries no month structure. -/

/-- `datetime.date()` on a minutes-since-epoch timestamp: the calendar
day index, by floor division (`Int` division by a positive constant). -/
def dateOf (t : Int) : Int := t / 1440

/-- `sales[sales["date"] == today]`: the sales dated today. -/
def salesToday (rows : List SaleRow) (today : Int) : List SaleRow :=
  rows.filter fun r => dateOf r.sold_at == today

/-- `sales[sales["sold_at"] >= (now - timedelta(days=6))]`: the
last-7-days window, a full datetime comparison (time of day included). -/
def last7 (rows : List SaleRow) (now : Int) : List SaleRow :=
  rows.filter fun r => decide (now - 6 * 1440 ≤ r.sold_at)

/-- `sales[(sales["date"] >= month_start) & (sales["date"] <= today)]`:
the current-month window, an inclusive filter on calendar dates. -/
def monthWindow (rows : List SaleRow) (monthStart today : Int) : List SaleRow :=
  rows.filter fun r =>
    decide (monthStart ≤ dateOf r.sold_at) && decide (dateOf r.sold_at ≤ today)

/-- `df["revenue"].sum()`: pandas sums the revenue column, yielding `0`
on an empty frame. -/
def sumRevenue (rows : List SaleRow) : Rat :=
  (rows.map fun r => r.revenue.getD 0).sum

/-- The distinct calendar days of `rows`, ascending (pandas `groupby`
sorts group keys). -/
def dayKeys (rows : List SaleRow) : List Int :=
  ((rows.map fun r => dateOf r.sold_at).dedup).insertionSort (· ≤ ·)

/-- The distinct product names of `rows`, ascending (pandas `groupby`
sorts group keys). -/
def productKeys (rows : List SaleRow) : List String :=
  ((rows.map fun r => r.product).dedup).insertionSort (· ≤ ·)

/-- `groupby("d")["revenue"].sum()`: bucket rows by calendar day and sum
each bucket's revenue; keys ascending. -/
def groupByDay (rows : List SaleRow) : List (Int × Rat) :=
  (dayKeys rows).map fun d =>
    (d, sumRevenue (rows.filter fun r => dateOf r.sold_at == d))

/-- `groupby("product")["revenue"].sum()`: bucket rows by product name
and sum each bucket's revenue; keys ascending. -/
def groupByProduct (rows : List SaleRow) : List (String × Rat) :=
  (productKeys rows).map fun nm =>
    (nm, sumRevenue (rows.filter fun r => r.product == nm))

/-- The "Hoje" chart: `if not sales_today.empty:` group today's sales by
product, `else` show the no-data caption (modelled as `none`). -/
def todayChart (rows : List SaleRow) (today : Int) : Option (List (String × Rat)) :=
  let w := salesToday rows today
  if w.isEmpty then none else some (groupByProduct w)

/-- The "Semana" chart: `if not last7.empty:` group the last-7-days
window by day, `else` show the no-data caption (modelled as `none`). -/
def weekChart (rows : List SaleRow) (now : Int) : Option (List (Int × Rat)) :=
  let w := last7 rows now
  if w.isEmpty then none else some (groupByDay w)

/-- The "Mês" chart: `if not month_df.empty:` group the current-month
window by day, `else` show the no-data caption (modelled as `none`). -/
def monthChart (rows : List SaleRow) (monthStart today : Int) :
    Option (List (Int × Rat)) :=
  let w := monthWindow rows monthStart today
  if w.isEmpty then none else some (groupByDay w)

/-! The `st.cache_data(ttl=10)` read cache in front of `load_products`
and `load_sales`.  A cached entry holds its fetch time (seconds) and the
fetched value, and is served while its age is under the TTL.
`add_product` and `update_product_price` call `load_products.clear()`;
`add_sale` performs no cache clearing. -/

/-- The application state: the database plus the two memoized queries. -/
structure AppState where
  db : DB
  productsCache : Option (Int × List Product)
  salesCache : Option (Int × SalesResult)
deriving Repr, DecidableEq

/-- `ttl=10` seconds on both cached readers. -/
def cacheTTL : Int := 10

/-- A cached call to `load_products` at time `now`: serve the cached
value while fresh, otherwise query the store and cache the result. -/
def readProducts (s : AppState) (now : Int) : List Product × AppState :=
  match s.productsCache with
  | some (t, v) =>
      if now - t < cacheTTL then (v, s)
      else
        let v := load_products s.db
        (v, { s with productsCache := some (now, v) })
  | none =>
      let v := load_products s.db
      (v, { s with productsCache := some (now, v) })

/-- A cached call to `load_sales` at time `now`: serve the cached value
while fresh, otherwise query the store and cache the result. -/
def readSales (s : AppState) (now : Int) : SalesResult × AppState :=
  match s.salesCache with
  | some (t, v) =>
      if now - t < cacheTTL then (v, s)
      else
        let v := load_sales s.db
        (v, { s with salesCache := some (now, v) })
  | none =>
      let v := load_sales s.db
      (v, { s with salesCache := some (now, v) })

/-- `add_product` at the application level: write, then
`load_products.clear()` (the sales cache is untouched). -/
def app_add_product (s : AppState) (name : String) (price : Rat) : AppState :=
  { s with db := add_product s.db name price, productsCache := none }

/-- `update_product_price` at the application level: write, then
`load_products.clear()` (the sales cache is untouched). -/
def app_update_product_price (s : AppState) (pid : Nat) (np : Rat) :
    Except DBError AppState :=
  (update_product_price s.db pid np).map fun db2 =>
    { s with db := db2, productsCache := none }

/-- `add_sale` at the application level: the source performs the insert
and clears NEITHER cache — in particular `load_sales.clear()` is never
called. -/
def app_add_sale (s : AppState) (pid : Nat) (qty : Int) (sold_at : Int) :
    Except DBError AppState :=
  (add_sale s.db pid qty sold_at).map fun db2 => { s with db := db2 }

/-! Concrete states used by witnesses and counterexamples. -/

/-- One product "Coffee" priced 5, no sales. -/
def demoDB : DB := ⟨[⟨1, "Coffee", 5⟩], [], 2, 1⟩

/-- One product "Coffee" priced 5 and one sale of 3 units of it. -/
def demoDB2 : DB := ⟨[⟨1, "Coffee", 5⟩], [⟨1, 1, 3, 0⟩], 2, 2⟩

/-! Helper lemmas shared by several results. -/

/-- The rows of `load_sales` are always the sorted join mapped through the
revenue derivation (on the empty frame both sides are `[]`). -/
theorem load_sales_rows_eq (db : DB) :
    (load_sales db).rows =
      ((db.sales.filterMap (joinRow db)).insertionSort rowOrd).map deriveRevenue := by
  simp only [load_sales]
  split
  · next h => simp_all
  · rfl

/-- A successfully joined sale appears (with its revenue derived) among
the rows `load_sales` returns. -/
theorem mem_load_sales_rows {db : DB} {s : Sale} {r : SaleRow}
    (hs : s ∈ db.sales) (hj : joinRow db s = some r) :
    deriveRevenue r ∈ (load_sales db).rows := by
  rw [load_sales_rows_eq]
  exact List.mem_map_of_mem _
    ((List.perm_insertionSort rowOrd _).mem_iff.mpr
      (List.mem_filterMap.mpr ⟨s, hs, hj⟩))

/-- A valid insert: positive quantity and an existing product append one
sale row and bump the id counter. -/
theorem add_sale_ok (db : DB) (pid : Nat) (qty ts : Int) (hq : 0 < qty)
    (hp : (db.findProduct pid).isSome) :
    add_sale db pid qty ts = .ok { db with
      sales := db.sales ++ [⟨db.nextSaleId, pid, qty, ts⟩]
      nextSaleId := db.nextSaleId + 1 } := by
  have h1 : ¬ qty ≤ 0 := by omega
  obtain ⟨p, hp2⟩ := Option.isSome_iff_exists.mp hp
  simp [add_sale, h1, hp2]

/-- `find?` by id commutes with the price rewrite `UPDATE` performs,
since the rewrite keeps every row's id. -/
theorem find?_map_update (l : List Product) (pid : Nat) (np : Rat) (p : Product)
    (h : l.find? (fun q => q.id == pid) = some p) :
    (l.map fun q => if q.id == pid then { q with price := np } else q).find?
      (fun q => q.id == pid) = some { p with price := np } := by
  induction l with
  | nil => simp at h
  | cons a l ih =>
    cases hb : a.id == pid with
    | true =>
      rw [List.find?_cons_of_pos (p := fun q : Product => q.id == pid) l hb] at h
      simp only [Option.some.injEq] at h
      subst h
      rw [List.map_cons]
      have hfa : (if a.id == pid then ({ a with price := np } : Product) else a)
          = { a with price := np } := by simp [hb]
      rw [hfa]
      exact List.find?_cons_of_pos (p := fun q : Product => q.id == pid) _ hb
    | false =>
      rw [List.find?_cons_of_neg (p := fun q : Product => q.id == pid) l (by simp [hb])] at h
      rw [List.map_cons]
      have hfa : (if a.id == pid then ({ a with price := np } : Product) else a) = a := by
        simp [hb]
      rw [hfa]
      rw [List.find?_cons_of_neg (p := fun q : Product => q.id == pid) _ (by simp [hb])]
      exact ih h

/-- A successful `update_product_price` on an existing product maps the
price rewrite over the table. -/
theorem update_product_price_ok (db : DB) (pid : Nat) (np : Rat) (p : Product)
    (hp : db.findProduct pid = some p) (hnp : 0 ≤ np) :
    update_product_price db pid np = .ok { db with
      products := db.products.map fun q =>
        if q.id == pid then { q with price := np } else q } := by
  unfold DB.findProduct at hp
  have hmem : (db.products.any fun q => q.id == pid) = true :=
    List.any_eq_true.mpr ⟨p, List.mem_of_find?_eq_some hp,
      List.find?_some (p := fun q : Product => q.id == pid) hp⟩
  have h2 : ¬ np < 0 := not_lt.mpr hnp
  simp [update_product_price, hmem, h2]

/-! Claim theorems. -/

/-- C8: `listProducts` returns all Products ordered by name ascending,
for every database state: `load_products db` is a permutation of the
products table sorted by the `ORDER BY name` order. -/
theorem load_products_sorted (db : DB) :
    (load_products db).Perm db.products ∧ List.Sorted prodOrd (load_products db) :=
  ⟨List.perm_insertionSort prodOrd db.products,
   List.sorted_insertionSort prodOrd db.products⟩

/-- C9: for every negative price argument, `add_product` leaves the
products table unchanged and raises no error — the `INSERT OR IGNORE`
swallows the `CHECK(price >= 0)` violation exactly as it swallows a
duplicate name, so the whole state is returned untouched. -/
theorem add_product_negative_price_noop (db : DB) (name : String) (price : Rat)
    (h : price < 0) : add_product db name price = db := by
  by_cases hc : (db.products.any fun p => p.name == name.trim) = true
  · simp [add_product, hc]
  · simp [add_product, hc, h]

/-- C9 witness: inserting at price −1 into the empty store is a no-op. -/
theorem add_product_negative_price_noop_witness :
    add_product ⟨[], [], 1, 1⟩ "X" (-1) = ⟨[], [], 1, 1⟩ :=
  add_product_negative_price_noop ⟨[], [], 1, 1⟩ "X" (-1) (by norm_num)

/-- C10: when the sales table is empty, `load_sales` returns the empty
frame as is — no rows, no derived `revenue` column, no parsed-datetime
`sold_at` column. -/
theorem load_sales_empty_shape (db : DB) (h : db.sales = []) :
    load_sales db = ⟨[], false, false⟩ := by
  simp [load_sales, h]

/-- C10 witness: a store with one product and no sales. -/
theorem load_sales_empty_shape_witness :
    load_sales demoDB = ⟨[], false, false⟩ :=
  load_sales_empty_shape demoDB rfl

/-- C7: aggregation over empty input is total and yields the defined
no-data state: `groupByDay` (and `groupByProduct`) over an empty row set
is the empty bucket set, and each of the three reporting windows, when
empty, yields the no-data state `none` rather than an error. -/
theorem empty_aggregation_total (rows : List SaleRow) (today now monthStart : Int) :
    groupByDay [] = [] ∧ groupByProduct [] = [] ∧
    (salesToday rows today = [] → todayChart rows today = none) ∧
    (last7 rows now = [] → weekChart rows now = none) ∧
    (monthWindow rows monthStart today = [] → monthChart rows monthStart today = none) := by
  refine ⟨rfl, rfl, fun h => ?_, fun h => ?_, fun h => ?_⟩ <;>
    simp [todayChart, weekChart, monthChart, h]

/-- C7 witness: with no rows at all, every window is empty and every
chart reports the no-data state. -/
theorem empty_aggregation_total_witness :
    groupByDay [] = [] ∧ groupByProduct [] = [] ∧
    todayChart [] 0 = none ∧ weekChart [] 0 = none ∧ monthChart [] 0 0 = none :=
  ⟨(empty_aggregation_total [] 0 0 0).1,
   (empty_aggregation_total [] 0 0 0).2.1,
   (empty_aggregation_total [] 0 0 0).2.2.1 rfl,
   (empty_aggregation_total [] 0 0 0).2.2.2.1 rfl,
   (empty_aggregation_total [] 0 0 0).2.2.2.2 rfl⟩

/-- C2: `addProduct` is an idempotent insert keyed on the trimmed name:
after a first insert of a fresh name, a second call with the same
trimmed name is a silent no-op (the operation is total, so it cannot
raise, and it returns the state unchanged, so it overwrites nothing),
and the store holds exactly one row under that name, priced at the
first call's price regardless of the second call's price argument. -/
theorem add_product_idempotent_insert (db : DB) (n1 n2 : String) (p1 p2 : Rat)
    (hname : n2.trim = n1.trim)
    (hfresh : ∀ q ∈ db.products, q.name ≠ n1.trim)
    (hp1 : 0 ≤ p1) :
    add_product (add_product db n1 p1) n2 p2 = add_product db n1 p1 ∧
    (add_product db n1 p1).products.filter (fun q => q.name == n1.trim) =
      [⟨db.nextProductId, n1.trim, p1⟩] := by
  have hany : (db.products.any fun p => p.name == n1.trim) = false :=
    List.any_eq_false.mpr fun p hp => by simpa using hfresh p hp
  have hnot : ¬ p1 < 0 := not_lt.mpr hp1
  have hdb1 : add_product db n1 p1 = { db with
      products := db.products ++ [⟨db.nextProductId, n1.trim, p1⟩]
      nextProductId := db.nextProductId + 1 } := by
    simp [add_product, hany, hnot]
  constructor
  · rw [hdb1]
    have hhit : ((db.products ++ [(⟨db.nextProductId, n1.trim, p1⟩ : Product)]).any
        fun p => p.name == n2.trim) = true := by
      simp [List.any_append, hname]
    simp [add_product, hhit]
  · rw [hdb1]
    have hnone : db.products.filter (fun q => q.name == n1.trim) = [] :=
      List.filter_eq_nil_iff.mpr fun q hq => by simpa using hfresh q hq
    simp [List.filter_append, hnone]

/-- C2 witness: the spec's own example — add "Tea" at 3 then at 4
leaves one row priced 3, and the second call returns the state as is. -/
theorem add_product_idempotent_insert_witness :
    add_product (add_product ⟨[], [], 1, 1⟩ "Tea" 3) "Tea" 4 =
      add_product ⟨[], [], 1, 1⟩ "Tea" 3 ∧
    (add_product ⟨[], [], 1, 1⟩ "Tea" 3).products.filter
      (fun q => q.name == "Tea".trim) = [⟨1, "Tea".trim, 3⟩] :=
  add_product_idempotent_insert ⟨[], [], 1, 1⟩ "Tea" "Tea" 3 4 rfl
    (by simp) (by norm_num)

/-- C5: `addSale` inserts a new Sale row on valid input; it fails with
the referential-integrity error when the product id matches no product
(with a valid quantity — SQLite checks `CHECK(qty > 0)` first), fails
with the constraint violation when `qty ≤ 0`, and in either failure no
state is produced, so the sales table is unchanged. -/
theorem add_sale_spec (db : DB) (pid : Nat) (qty ts : Int) :
    (qty ≤ 0 → add_sale db pid qty ts = .error .constraintViolation) ∧
    (0 < qty → db.findProduct pid = none →
      add_sale db pid qty ts = .error .referentialIntegrityError) ∧
    (∀ p, 0 < qty → db.findProduct pid = some p →
      add_sale db pid qty ts = .ok { db with
        sales := db.sales ++ [⟨db.nextSaleId, pid, qty, ts⟩]
        nextSaleId := db.nextSaleId + 1 }) := by
  refine ⟨fun h => ?_, fun h1 h2 => ?_, fun p h1 h2 => ?_⟩
  · simp [add_sale, h]
  · have h3 : ¬ qty ≤ 0 := by omega
    simp [add_sale, h3, h2]
  · exact add_sale_ok db pid qty ts h1 (by simp [h2])

/-- C5 witness: on the one-product store, `qty = 0` violates the CHECK,
an unknown product id violates the foreign key, and a valid insert
appends exactly one row. -/
theorem add_sale_spec_witness :
    add_sale demoDB 1 0 0 = .error .constraintViolation ∧
    add_sale demoDB 2 1 0 = .error .referentialIntegrityError ∧
    add_sale demoDB 1 3 0 = .ok ⟨[⟨1, "Coffee", 5⟩], [⟨1, 1, 3, 0⟩], 2, 2⟩ :=
  ⟨(add_sale_spec demoDB 1 0 0).1 (by norm_num),
   (add_sale_spec demoDB 2 1 0).2.1 (by norm_num) rfl,
   (add_sale_spec demoDB 1 3 0).2.2 ⟨1, "Coffee", 5⟩ (by norm_num) rfl⟩

/-- C6: for every database state, `listSales` returns exactly the rows
of the sales/products join (each sale next to its owning product's
current name and price, with revenue derived), ordered by timestamp
descending with ties broken by insertion id descending. -/
theorem load_sales_sorted_join (db : DB) :
    (load_sales db).rows.Perm
      ((db.sales.filterMap (joinRow db)).map deriveRevenue) ∧
    List.Sorted rowOrd (load_sales db).rows := by
  rw [load_sales_rows_eq]
  constructor
  · exact (List.perm_insertionSort rowOrd _).map deriveRevenue
  · exact List.Pairwise.map deriveRevenue (fun a b hab => hab)
      (List.sorted_insertionSort rowOrd (db.sales.filterMap (joinRow db)))

/-- A successful join lookup determines the listed row: the sale's
columns next to the found product's current name and price. -/
theorem joinRow_eq {db : DB} {s : Sale} {p : Product}
    (hp : db.findProduct s.product_id = some p) :
    joinRow db s = some ⟨s.id, s.product_id, p.name, p.price, s.qty, s.sold_at, none⟩ := by
  unfold joinRow
  rw [hp]
  rfl

/-- C1: revenue is computed at query time from the product's current
price: a valid `addSale` followed by `listSales` lists the new sale with
revenue qty × the product's current price, and after
`updateProductPrice` a subsequent `listSales` lists every pre-existing
sale of that product with revenue recomputed from the new price
(join-time pricing). -/
theorem join_time_pricing (db : DB) (pid : Nat) (p : Product) (qty ts : Int)
    (newPrice : Rat) (s : Sale) (hp : db.findProduct pid = some p) :
    (0 < qty → ∃ db2, add_sale db pid qty ts = .ok db2 ∧
      (⟨db.nextSaleId, pid, p.name, p.price, qty, ts,
        some ((qty : Rat) * p.price)⟩ : SaleRow) ∈ (load_sales db2).rows) ∧
    (0 ≤ newPrice → s ∈ db.sales → s.product_id = pid →
      ∃ db2, update_product_price db pid newPrice = .ok db2 ∧
      (⟨s.id, pid, p.name, newPrice, s.qty, s.sold_at,
        some ((s.qty : Rat) * newPrice)⟩ : SaleRow) ∈ (load_sales db2).rows) := by
  constructor
  · intro hq
    refine ⟨_, add_sale_ok db pid qty ts hq (by simp [hp]), ?_⟩
    have hs : (⟨db.nextSaleId, pid, qty, ts⟩ : Sale) ∈
        db.sales ++ [(⟨db.nextSaleId, pid, qty, ts⟩ : Sale)] := by simp
    have hp2 : DB.findProduct { db with
        sales := db.sales ++ [⟨db.nextSaleId, pid, qty, ts⟩]
        nextSaleId := db.nextSaleId + 1 }
        ((⟨db.nextSaleId, pid, qty, ts⟩ : Sale).product_id) = some p := hp
    exact mem_load_sales_rows hs (joinRow_eq hp2)
  · intro hnp hsmem hspid
    refine ⟨_, update_product_price_ok db pid newPrice p hp hnp, ?_⟩
    subst hspid
    have hp2 : DB.findProduct { db with
        products := db.products.map fun q =>
          if q.id == s.product_id then { q with price := newPrice } else q }
        s.product_id = some { p with price := newPrice } := by
      unfold DB.findProduct at hp ⊢
      exact find?_map_update db.products s.product_id newPrice p hp
    have hsmem2 : s ∈ ({ db with products := db.products.map fun q =>
        if q.id == s.product_id then { q with price := newPrice } else q } : DB).sales :=
      hsmem
    exact mem_load_sales_rows hsmem2 (joinRow_eq hp2)

/-- C1 witness: on the store with "Coffee" at price 5 and a prior sale
of 3 units, a new sale of 2 units lists with revenue 2 × 5, and after
updating the price to 7 the prior sale lists with revenue 3 × 7. -/
theorem join_time_pricing_witness :
    (∃ db2, add_sale demoDB2 1 2 10 = .ok db2 ∧
      (⟨2, 1, "Coffee", 5, 2, 10,
        some (((2 : Int) : Rat) * 5)⟩ : SaleRow) ∈ (load_sales db2).rows) ∧
    (∃ db2, update_product_price demoDB2 1 7 = .ok db2 ∧
      (⟨1, 1, "Coffee", 7, 3, 0,
        some (((3 : Int) : Rat) * 7)⟩ : SaleRow) ∈ (load_sales db2).rows) := by
  have h := join_time_pricing demoDB2 1 ⟨1, "Coffee", 5⟩ 2 10 7 ⟨1, 1, 3, 0⟩ rfl
  exact ⟨h.1 (by norm_num), h.2 (by norm_num) (by simp [demoDB2]) rfl⟩

/-- C4 counterexample: at `now` = day 7, 12:00 (minute 10800, so D = 7),
a sale timestamped day 1, 00:01 (minute 1441, exactly D−6 00:01) is NOT
selected by the last-7-days filter, refuting the claim's "includes a
sale timestamped D−6 00:01 ... for every value of now on day D". -/
theorem last7_claim_counterexample :
    dateOf 10800 = 7 ∧
    (⟨1, 1, "Coffee", 5, 1, 1441, some 5⟩ : SaleRow).sold_at = (7 - 6) * 1440 + 1 ∧
    (⟨1, 1, "Coffee", 5, 1, 1441, some 5⟩ : SaleRow) ∉
      last7 [⟨1, 1, "Coffee", 5, 1, 1441, some 5⟩] 10800 := by
  refine ⟨rfl, rfl, ?_⟩
  simp [last7]

/-- C4 amended: the last-7-days window is the full datetime comparison
`sold_at ≥ now − 6 days`, not a midnight-aligned one: computed at any
`now` of day D it always excludes a sale timestamped D−7 23:59, and it
includes a sale timestamped D−6 00:01 exactly when now's own time of
day is at most 00:01. -/
theorem last7_window_boundaries (rows : List SaleRow) (r : SaleRow) (now D : Int)
    (hD : dateOf now = D) :
    (r.sold_at = (D - 7) * 1440 + 1439 → r ∉ last7 rows now) ∧
    (r.sold_at = (D - 6) * 1440 + 1 →
      (r ∈ last7 rows now ↔ r ∈ rows ∧ now % 1440 ≤ 1)) := by
  unfold dateOf at hD
  constructor
  · intro hr hmem
    rw [last7, List.mem_filter] at hmem
    have h2 := of_decide_eq_true hmem.2
    omega
  · intro hr
    rw [last7, List.mem_filter]
    constructor
    · rintro ⟨h1, h2⟩
      have h3 := of_decide_eq_true h2
      exact ⟨h1, by omega⟩
    · rintro ⟨h1, h2⟩
      exact ⟨h1, decide_eq_true (by omega)⟩

/-- C4 witness: at `now` = day 7, 00:01 (minute 10081), the D−7 23:59
sale (minute 1439) is excluded, and the D−6 00:01 sale (minute 1441) is
included exactly because now's time of day is 00:01. -/
theorem last7_window_boundaries_witness :
    ((⟨1, 1, "A", 1, 1, 1439, none⟩ : SaleRow) ∉
      last7 [⟨1, 1, "A", 1, 1, 1439, none⟩] 10081) ∧
    ((⟨1, 1, "A", 1, 1, 1441, none⟩ : SaleRow) ∈
        last7 [⟨1, 1, "A", 1, 1, 1441, none⟩] 10081 ↔
      (⟨1, 1, "A", 1, 1, 1441, none⟩ : SaleRow) ∈
        [(⟨1, 1, "A", 1, 1, 1441, none⟩ : SaleRow)] ∧ (10081 : Int) % 1440 ≤ 1) := by
  have h1 := last7_window_boundaries [⟨1, 1, "A", 1, 1, 1439, none⟩]
    ⟨1, 1, "A", 1, 1, 1439, none⟩ 10081 7 (by decide)
  have h2 := last7_window_boundaries [⟨1, 1, "A", 1, 1, 1441, none⟩]
    ⟨1, 1, "A", 1, 1, 1441, none⟩ 10081 7 (by decide)
  exact ⟨h1.1 (by decide), h2.2 (by decide)⟩

/-- C3 (the code contradicts this claim): `add_sale` clears neither
cache, so a `listSales` read within the TTL after `addSale` still
returns the cached pre-mutation snapshot.  Starting from the
one-product store: a read at t = 0 caches the empty frame; a successful
`addSale` keeps that cache entry; the read at t = 5 then returns the
empty cached frame although the store's sales listing now has the row. -/
theorem add_sale_stale_cache :
    app_add_sale ((readSales ⟨demoDB, none, none⟩ 0).2) 1 1 0 =
      .ok ⟨⟨[⟨1, "Coffee", 5⟩], [⟨1, 1, 1, 0⟩], 2, 2⟩, none,
        some (0, ⟨[], false, false⟩)⟩ ∧
    (readSales ⟨⟨[⟨1, "Coffee", 5⟩], [⟨1, 1, 1, 0⟩], 2, 2⟩, none,
        some (0, ⟨[], false, false⟩)⟩ 5).1 = ⟨[], false, false⟩ ∧
    (load_sales ⟨[⟨1, "Coffee", 5⟩], [⟨1, 1, 1, 0⟩], 2, 2⟩).rows =
      [⟨1, 1, "Coffee", 5, 1, 0, some (((1 : Int) : Rat) * 5)⟩] := by
  refine ⟨?_, ?_, ?_⟩ <;> rfl

end SalesApp
